import Mathlib

/-!
Shallow embedding of `mypyc/build.py` (the extension assembly and linkage
layer of mypyc): the strategy decision between single-module and
shared-library builds, shim source generation, shared-library naming via a
SHA-1 content hash, relative link path resolution, and the option handling
of the build entry point.  External collaborators (the mypy front end
`process_options`, the C code generator `emitmodule`, `glob`, and the host
compiler) are passed in as explicit parameters.
-/

namespace MypycBuild

/-! ### SHA-1 (the `hashlib.sha1` routine used by `shared_lib_name`),
implemented over `Nat` with explicit reduction modulo `2 ^ 32`. -/

/-- Rotate a 32-bit word (represented as a `Nat` below `2 ^ 32`) left by `n`. -/
def rotl32 (n x : Nat) : Nat :=
  ((x <<< n) ||| (x >>> (32 - n))) % 2 ^ 32

/-- UTF-8 encoding of a single character, as a list of byte values.
Embeds the Python `str.encode()` step of `shared_lib_name`. -/
def utf8Bytes (c : Char) : List Nat :=
  let n := c.toNat
  if n < 0x80 then [n]
  else if n < 0x800 then
    [0xC0 ||| (n >>> 6), 0x80 ||| (n % 64)]
  else if n < 0x10000 then
    [0xE0 ||| (n >>> 12), 0x80 ||| ((n >>> 6) % 64), 0x80 ||| (n % 64)]
  else
    [0xF0 ||| (n >>> 18), 0x80 ||| ((n >>> 12) % 64),
     0x80 ||| ((n >>> 6) % 64), 0x80 ||| (n % 64)]

/-- UTF-8 encoding of a string, as a list of byte values. -/
def strBytes (s : String) : List Nat :=
  (s.toList.map utf8Bytes).flatten

/-- Big-endian byte representation of `n`, `k` bytes wide. -/
def beBytes (k n : Nat) : List Nat :=
  (List.range k).map (fun i => (n >>> ((k - 1 - i) * 8)) % 256)

/-- Big-endian word value of a list of bytes. -/
def beWord (bs : List Nat) : Nat :=
  bs.foldl (fun acc b => acc * 256 + b) 0

/-- SHA-1 message padding: append `0x80`, zero bytes up to 56 mod 64, then
the 64-bit big-endian bit length. -/
def sha1pad (m : List Nat) : List Nat :=
  let padZeros := (64 + 56 - (m.length + 1) % 64) % 64
  m ++ [0x80] ++ List.replicate padZeros 0 ++ beBytes 8 (m.length * 8)

/-- Split a byte list into chunks of 64 bytes; the fuel argument, set to
the list length, bounds the number of chunks so that the recursion is
structural and reduces in the kernel. -/
def chunks64Go : Nat → List Nat → List (List Nat)
  | _, [] => []
  | 0, _ :: _ => []
  | fuel + 1, c :: cs => (c :: cs.take 63) :: chunks64Go fuel (cs.drop 63)

/-- Split a byte list into chunks of 64 bytes. -/
def chunks64 (l : List Nat) : List (List Nat) :=
  chunks64Go l.length l

/-- The 16 message words of a 64-byte chunk. -/
def chunkWords (chunk : List Nat) : List Nat :=
  (List.range 16).map (fun i => beWord ((chunk.drop (4 * i)).take 4))

/-- Extend the 16 message words to the 80 words of the SHA-1 schedule. -/
def extendTo80 (ws : List Nat) : List Nat :=
  (List.range 64).foldl
    (fun acc _ =>
      let n := acc.length
      acc ++ [rotl32 1 ((((acc.getD (n - 3) 0) ^^^ (acc.getD (n - 8) 0)) ^^^
        (acc.getD (n - 14) 0)) ^^^ (acc.getD (n - 16) 0))])
    ws

/-- The SHA-1 round function. -/
def sha1F (i b c d : Nat) : Nat :=
  if i < 20 then (b &&& c) ||| (((2 ^ 32 - 1) - b) &&& d)
  else if i < 40 then (b ^^^ c) ^^^ d
  else if i < 60 then ((b &&& c) ||| (b &&& d)) ||| (c &&& d)
  else (b ^^^ c) ^^^ d

/-- The SHA-1 round constants. -/
def sha1K (i : Nat) : Nat :=
  if i < 20 then 0x5A827999
  else if i < 40 then 0x6ED9EBA1
  else if i < 60 then 0x8F1BBCDC
  else 0xCA62C1D6

/-- The five 32-bit state words of SHA-1. -/
structure Sha1State where
  h0 : Nat
  h1 : Nat
  h2 : Nat
  h3 : Nat
  h4 : Nat
deriving DecidableEq, Repr

/-- The SHA-1 initial state. -/
def sha1Start : Sha1State :=
  ⟨0x67452301, 0xEFCDAB89, 0x98BADCFE, 0x10325476, 0xC3D2E1F0⟩

/-- Process one 64-byte chunk of the message. -/
def sha1Compress (st : Sha1State) (chunk : List Nat) : Sha1State :=
  let ws := extendTo80 (chunkWords chunk)
  let fin := (List.range 80).foldl
    (fun (abcde : Nat × Nat × Nat × Nat × Nat) i =>
      let (a, b, c, d, e) := abcde
      let temp := (rotl32 5 a + sha1F i b c d + e + sha1K i + ws.getD i 0) % 2 ^ 32
      (temp, a, rotl32 30 b, c, d))
    (st.h0, st.h1, st.h2, st.h3, st.h4)
  { h0 := (st.h0 + fin.1) % 2 ^ 32
    h1 := (st.h1 + fin.2.1) % 2 ^ 32
    h2 := (st.h2 + fin.2.2.1) % 2 ^ 32
    h3 := (st.h3 + fin.2.2.2.1) % 2 ^ 32
    h4 := (st.h4 + fin.2.2.2.2) % 2 ^ 32 }

/-- The SHA-1 digest of a byte list, as a list of 20 byte values. -/
def sha1Digest (m : List Nat) : List Nat :=
  let fin := (chunks64 (sha1pad m)).foldl sha1Compress sha1Start
  (([fin.h0, fin.h1, fin.h2, fin.h3, fin.h4]).map (beBytes 4)).flatten

/-- The lowercase hexadecimal digit for a value below 16: a decimal digit
character for values below ten, a letter from `a` onwards for the rest. -/
def hexChar (n : Nat) : Char :=
  if n < 10 then Char.ofNat (48 + n) else Char.ofNat (87 + n)

/-- The sixteen lowercase hexadecimal digits. -/
def hexChars : List Char := (List.range 16).map hexChar

/-- The two hexadecimal digits of a byte value. -/
def byteHex (b : Nat) : List Char := [hexChar (b / 16), hexChar (b % 16)]

/-- The characters of `hashlib.sha1(...).hexdigest()`: the digest bytes in
lowercase hexadecimal. -/
def sha1HexdigestChars (m : List Nat) : List Char :=
  ((sha1Digest m).map byteHex).flatten

/-! ### String and path helpers embedding the Python primitives used by
`build.py`: `str.split`, `str.format`, `os.path.join` and `os.path.split`
(POSIX semantics, matching the host on which the claims are evaluated). -/

/-- Embedding of Python `str.split(sep)` at the character-list level:
splits at every occurrence of `sep`, keeping empty pieces, and yields one
piece even for the empty input. -/
def pySplit (sep : Char) : List Char → List (List Char)
  | [] => [[]]
  | c :: cs =>
    if c = sep then [] :: pySplit sep cs
    else
      match pySplit sep cs with
      | [] => [[c]]
      | r :: rs => (c :: r) :: rs

/-- The opening curly brace character. -/
def braceOpen : Char := Char.ofNat 123

/-- The closing curly brace character. -/
def braceClose : Char := Char.ofNat 125

/-- Embedding of Python `str.format` restricted to named fields, as used on
the shim templates: a doubled brace is an escaped literal brace, and a
braced name is replaced by its substitution.  The second argument is
`none` outside a field and carries the reversed field name inside one. -/
def pyFormatAux (subs : List (String × String)) : Option (List Char) → List Char → List Char
  | _, [] => []
  | some acc, c :: rest =>
    if c = braceClose then
      ((subs.lookup (String.mk acc.reverse)).getD "").toList ++ pyFormatAux subs none rest
    else pyFormatAux subs (some (c :: acc)) rest
  | none, c :: rest =>
    if c = braceOpen then
      match rest with
      | c2 :: rest2 =>
        if c2 = braceOpen then c :: pyFormatAux subs none rest2
        else if c2 = braceClose then
          ((subs.lookup "").getD "").toList ++ pyFormatAux subs none rest2
        else pyFormatAux subs (some [c2]) rest2
      | [] => [c]
    else if c = braceClose then
      match rest with
      | c2 :: rest2 =>
        if c2 = braceClose then c :: pyFormatAux subs none rest2
        else c :: pyFormatAux subs none rest2
      | [] => [c]
    else c :: pyFormatAux subs none rest

/-- Python `template.format(**subs)` for the shim templates. -/
def pyFormat (template : String) (subs : List (String × String)) : String :=
  String.mk (pyFormatAux subs none template.toList)

/-- Embedding of `os.path.join` for two components (POSIX rules). -/
def posixJoin (a b : String) : String :=
  if b.toList.head? = some '/' then b
  else if a = "" then b
  else if a.toList.getLast? = some '/' then a ++ b
  else a ++ "/" ++ b

/-- Embedding of `os.path.join(*parts)` over a list of components. -/
def os_path_join_all : List String → String
  | [] => ""
  | p :: ps => ps.foldl posixJoin p

/-- Embedding of `os.path.split(p)[1]`: the final path component. -/
def posixBasename (p : String) : String :=
  String.mk ((pySplit '/' p.toList).getLastD [])

/-! ### Data model -/

/-- Target platform, the values of `sys.platform` that `build.py`
distinguishes. -/
inductive Platform : Type where
  | win32
  | linux
  | darwin
  | other
deriving DecidableEq, Repr

/-- A mypy `BuildSource` as used by `build.py`: a fully-qualified dotted
module name and an optional source file path. -/
structure BuildSource where
  module : String
  path : Option String
deriving DecidableEq, Repr

/-- The slice of the mypy `Options` object that `get_mypy_config`
inspects or mutates. -/
structure MypyOptions where
  python_version_major : Nat
  python_version_minor : Nat
  strict_optional : Bool
  show_traceback : Bool
  export_types : Bool
  incremental : Bool
  per_module_mypyc : List String
deriving DecidableEq, Repr

/-- A `MypycifyExtension`: a setuptools `Extension` together with the extra
mypyc metadata (`is_mypyc_shared`, and for shims the back-reference
`mypyc_shared_target` to the shared-library extension). -/
inductive MypycifyExtension : Type where
  | mk (name : String) (sources : List String) (include_dirs : List String)
       (extra_compile_args : List String) (is_mypyc_shared : Bool)
       (mypyc_shared_target : Option MypycifyExtension) : MypycifyExtension

/-- The extension target name. -/
def MypycifyExtension.name : MypycifyExtension → String
  | .mk n _ _ _ _ _ => n

/-- The native source files of the extension. -/
def MypycifyExtension.sources : MypycifyExtension → List String
  | .mk _ s _ _ _ _ => s

/-- The include directories of the extension. -/
def MypycifyExtension.include_dirs : MypycifyExtension → List String
  | .mk _ _ d _ _ _ => d

/-- The extra compile arguments of the extension. -/
def MypycifyExtension.extra_compile_args : MypycifyExtension → List String
  | .mk _ _ _ a _ _ => a

/-- Whether this extension is the shared library of a multi-module build. -/
def MypycifyExtension.is_mypyc_shared : MypycifyExtension → Bool
  | .mk _ _ _ _ b _ => b

/-- The back-reference of a shim extension to its shared library. -/
def MypycifyExtension.mypyc_shared_target : MypycifyExtension → Option MypycifyExtension
  | .mk _ _ _ _ _ t => t

/-! ### Operations of `build.py` -/

/-- The `lib-rt` include directory from `include_dir()`; its host-dependent
absolute prefix is not part of the embedded state, so the bare directory
name stands for it. -/
def include_dir : String := "lib-rt"

/-- Modelled from the spec: `exported_name` lives in the external name
generator (`mypyc.namegen`, outside these sources); per the spec it is a
deterministic, collision-resistant transform of the fully-qualified module
name into the symbol suffix of the per-module initializer. -/
def exported_name (full_module_name : String) : String :=
  full_module_name.replace "." "___"

/-- The `shim_template_unix` literal, with Python format fields.  The
literal braces that the Python source writes as doubled braces appear here
as character escapes. -/
def shim_template_unix : String :=
  "#include <Python.h>\n\nPyObject *CPyInit_{full_modname}(void);\n\nPyMODINIT_FUNC\nPyInit_{modname}(void)\n\x7b\x7b\n    return CPyInit_{full_modname}();\n\x7d\x7d\n"

/-- The `shim_template_windows` raw literal.  The Python source is a raw
triple-quoted string starting with a backslash and a newline, which the
raw literal keeps. -/
def shim_template_windows : String :=
  "\\\n#include <Python.h>\n#include <windows.h>\n#include <stdlib.h>\n#include <stdio.h>\n\nEXTERN_C IMAGE_DOS_HEADER __ImageBase;\n\ntypedef PyObject *(__cdecl *INITPROC)();\n\nPyMODINIT_FUNC\nPyInit_{modname}(void)\n\x7b\x7b\n    char path[MAX_PATH];\n    char drive[MAX_PATH];\n    char directory[MAX_PATH];\n    HINSTANCE hinstLib;\n    INITPROC proc;\n\n    // get the file name of this dll\n    DWORD res = GetModuleFileName((HINSTANCE)&__ImageBase, path, sizeof(path));\n    if (res == 0 || res == sizeof(path)) \x7b\x7b\n        PyErr_SetString(PyExc_RuntimeError, \"GetModuleFileName failed\");\n        return NULL;\n    \x7d\x7d\n\n    // find the directory this dll is in\n    _splitpath(path, drive, directory, NULL, NULL);\n    // and use it to construct a path to the shared library\n    snprintf(path, sizeof(path), \"%s%s%s\", drive, directory, MYPYC_LIBRARY);\n\n    hinstLib = LoadLibrary(path);\n    if (!hinstLib) \x7b\x7b\n        PyErr_SetString(PyExc_RuntimeError, \"LoadLibrary failed\");\n        return NULL;\n    \x7d\x7d\n    proc = (INITPROC)GetProcAddress(hinstLib, \"CPyInit_{full_modname}\");\n    if (!proc) \x7b\x7b\n        PyErr_SetString(PyExc_RuntimeError, \"GetProcAddress failed\");\n        return NULL;\n    \x7d\x7d\n\n    return proc();\n\x7d\x7d\n\n// distutils sometimes spuriously tells cl to export CPyInit___init__,\n// so provide that so it chills out\nPyMODINIT_FUNC PyInit___init__(void) \x7b\x7b return PyInit_{modname}(); \x7d\x7d\n"

/-- `generate_c_extension_shim`: picks the platform template, fills in the
module names, and returns the path the shim is written to together with
the written text (the pair models the file-write effect). -/
def generate_c_extension_shim (platform : Platform)
    (full_module_name module_name dirname : String) : String × String :=
  let cname := full_module_name.replace "." "___" ++ ".c"
  let cpath := posixJoin dirname cname
  let shim_template :=
    if platform = Platform.win32 then shim_template_windows else shim_template_unix
  (cpath,
   pyFormat shim_template
     [("modname", module_name), ("full_modname", exported_name full_module_name)])

/-- `shared_lib_name`: a probably unique library name from a list of module
names, the `mypyc_` prefix followed by the first 20 characters of the SHA-1
hex digest of the comma-joined list. -/
def shared_lib_name (modules : List String) : String :=
  "mypyc_" ++ String.mk ((sha1HexdigestChars (strBytes (String.intercalate "," modules))).take 20)

/-- Python truthiness of the optional `source.path`, as tested by the
`assert source.path` in `build_using_shared_lib`. -/
def pathTruthy : Option String → Bool
  | none => false
  | some p => !p.isEmpty

/-- `build_using_shared_lib`: the shared-library extension followed by one
shim extension per module.  Returns `none` when the `assert source.path`
in the loop would fail. -/
def build_using_shared_lib (platform : Platform) (sources : List BuildSource)
    (lib_name : String) (cfiles : List String) (build_dir : String)
    (extra_compile_args : List String) : Option (List MypycifyExtension) :=
  let shared_lib :=
    MypycifyExtension.mk ("lib" ++ lib_name) cfiles [include_dir] extra_compile_args true none
  if sources.all (fun s => pathTruthy s.path) then
    some (shared_lib :: sources.map (fun source =>
      let module_name := String.mk ((pySplit '.' source.module.toList).getLastD [])
      let shim_file := (generate_c_extension_shim platform source.module module_name build_dir).1
      let full_module_name :=
        if posixBasename (source.path.getD "") = "__init__.py" then source.module ++ ".__init__"
        else source.module
      MypycifyExtension.mk full_module_name [shim_file] [] extra_compile_args false
        (some shared_lib)))
  else none

/-- `build_single_module`: the one standalone extension, named after the
sole module.  Returns `none` when `sources[0]` would raise `IndexError`. -/
def build_single_module (sources : List BuildSource) (cfiles : List String)
    (extra_compile_args : List String) : Option (List MypycifyExtension) :=
  match sources with
  | [] => none
  | s :: _ =>
    some [MypycifyExtension.mk s.module cfiles [include_dir] extra_compile_args false none]

/-- The strategy decision of `mypycify`: a shared library is used when
there is more than one module or any module name contains a dot. -/
def use_shared_lib (sources : List BuildSource) : Bool :=
  decide (sources.length > 1) || sources.any (fun x => x.module.toList.any (fun c => c == '.'))

/-- What happens to the option lists in `get_mypy_config`:
`used` is the argument list handed to `process_options` after the
`mypy_options = mypy_options or []` rebinding, the `append` of the
separator and the `extend` with the paths; `caller_after` is the content of
the list object the caller passed in once the call returns.  A non-empty
caller list is mutated in place; an empty one is replaced by a fresh list
by the `or`, so the caller keeps the empty list. -/
structure OptionsEffect where
  used : List String
  caller_after : Option (List String)
deriving DecidableEq, Repr

/-- The option-list handling of `get_mypy_config` (its first three
statements), with Python aliasing made explicit. -/
def get_mypy_config_options (paths : List String)
    (mypy_options : Option (List String)) : OptionsEffect :=
  match mypy_options with
  | none => { used := ["--"] ++ paths, caller_after := none }
  | some l =>
    if l.isEmpty then { used := ["--"] ++ paths, caller_after := some l }
    else { used := l ++ ["--"] ++ paths, caller_after := some (l ++ ["--"] ++ paths) }

/-- `fail`: `sys.exit(message)`; exiting with a string message is a
non-zero exit, modelled as the error branch carrying the message. -/
def fail {α : Type} (message : String) : Except String α := .error message

/-- `get_mypy_config`: builds the argument list, runs the external mypy
front end `process_options` (passed in as a parameter), rejects Python 2
and disabled strict-optional checking, and adjusts the remaining options. -/
def get_mypy_config
    (process_options : List String → Except String (List BuildSource × MypyOptions))
    (paths : List String) (mypy_options : Option (List String)) :
    Except String (List BuildSource × MypyOptions) :=
  let eff := get_mypy_config_options paths mypy_options
  match process_options eff.used with
  | .error e => .error e
  | .ok (sources, options) =>
    if options.python_version_major = 2 then fail "Python 2 not supported"
    else if !options.strict_optional then
      fail "Disabling strict optional checking not supported"
    else .ok (sources,
      { options with
          show_traceback := true
          export_types := true
          incremental := false
          per_module_mypyc := sources.map (fun s => s.module) })

/-- Whether an `Except` carries an error. -/
def isError {ε α : Type} : Except ε α → Bool
  | .error _ => true
  | .ok _ => false

/-- The outcome of `mypycify`: the directories it made (or ensured) on the
way, and either the extension list or the message of the fatal exit. -/
structure MypycifyOutcome where
  dirs_created : List String
  result : Except String (List MypycifyExtension)

/-- `mypycify`, the build entry point.  The external collaborators are
parameters: the mypy front end `process_options`, the filesystem `glob`,
and the C generation step (whose resulting file names `cgen_files` and the
compiler-dependent flag list `cflags` are taken as given).  The build
directory is made before the configuration is read, exactly as in the
source. -/
def mypycify (platform : Platform)
    (process_options : List String → Except String (List BuildSource × MypyOptions))
    (globFn : String → List String)
    (paths : List String) (mypy_options : Option (List String))
    (cgen_files : List String) (cflags : List String) : MypycifyOutcome :=
  let expanded_paths := (paths.map globFn).flatten
  let dirs_created := ["build"]
  match get_mypy_config process_options expanded_paths mypy_options with
  | .error e => { dirs_created := dirs_created, result := .error e }
  | .ok (sources, _options) =>
    let cfilenames := cgen_files ++ [posixJoin "build" "CPy.c"]
    if use_shared_lib sources then
      let lib_name := shared_lib_name (sources.map (fun s => s.module))
      match build_using_shared_lib platform sources lib_name cfilenames "build" cflags with
      | some exts => { dirs_created := dirs_created, result := .ok exts }
      | none => { dirs_created := dirs_created, result := .error "AssertionError" }
    else
      match build_single_module sources cfilenames cflags with
      | some exts => { dirs_created := dirs_created, result := .ok exts }
      | none => { dirs_created := dirs_created, result := .error "IndexError" }

/-- `MypycifyBuildExt._get_rt_lib_path`: the relative path from the install
directory of an extension to the build root, one parent-directory step per
additional dotted component of the extension name. -/
def get_rt_lib_path (name : String) : String :=
  let module_parts := pySplit '.' name.toList
  if module_parts.length > 1 then
    os_path_join_all (List.replicate (module_parts.length - 1) "..")
  else "."

/-! ### Helper lemmas -/

/-- Splitting yields one more piece than there are separators. -/
theorem pySplit_length (sep : Char) (l : List Char) :
    (pySplit sep l).length = l.count sep + 1 := by
  induction l with
  | nil => rfl
  | cons c cs ih =>
    by_cases h : c = sep
    · simp [pySplit, h, List.count_cons, ih]
    · simp only [pySplit, if_neg h]
      cases hps : pySplit sep cs with
      | nil => rw [hps] at ih; simp at ih
      | cons r rs =>
        rw [hps] at ih
        simp only [List.length_cons] at ih ⊢
        simp [List.count_cons, h, ih]

/-- The SHA-1 digest always has 20 bytes. -/
theorem sha1Digest_length (m : List Nat) : (sha1Digest m).length = 20 := by
  simp [sha1Digest, beBytes]

/-- Every byte of the SHA-1 digest is below 256. -/
theorem sha1Digest_lt_256 (m : List Nat) : ∀ b ∈ sha1Digest m, b < 256 := by
  intro b hb
  simp only [sha1Digest, beBytes, List.mem_flatten, List.mem_map] at hb
  obtain ⟨bs, ⟨w, hw, rfl⟩, hbbs⟩ := hb
  simp only [List.mem_map, List.mem_range] at hbbs
  obtain ⟨i, _, rfl⟩ := hbbs
  exact Nat.mod_lt _ (by omega)

/-- The hex digest always has 40 characters. -/
theorem sha1HexdigestChars_length (m : List Nat) :
    (sha1HexdigestChars m).length = 40 := by
  have h20 := sha1Digest_length m
  have hconst : ∀ l : List Nat, (l.map (List.length ∘ byteHex)).sum = 2 * l.length := by
    intro l
    induction l with
    | nil => rfl
    | cons b bs ih => simp [byteHex, ih, Nat.mul_add]; omega
  simp [sha1HexdigestChars, List.length_flatten, List.map_map, hconst, h20]

/-- A value below 16 maps to one of the sixteen hex digits. -/
theorem hexChar_mem {n : Nat} (h : n < 16) : hexChar n ∈ hexChars := by
  simp only [hexChars, List.mem_map]
  exact ⟨n, List.mem_range.mpr h, rfl⟩

/-- Every character of the hex digest is a lowercase hex digit. -/
theorem sha1HexdigestChars_mem (m : List Nat) :
    ∀ c ∈ sha1HexdigestChars m, c ∈ hexChars := by
  intro c hc
  simp only [sha1HexdigestChars, List.mem_flatten, List.mem_map] at hc
  obtain ⟨cs, ⟨b, hb, rfl⟩, hccs⟩ := hc
  have hblt : b < 256 := sha1Digest_lt_256 m b hb
  simp only [byteHex, List.mem_cons, List.mem_singleton] at hccs
  rcases hccs with rfl | rfl | hfalse
  · exact hexChar_mem (Nat.div_lt_of_lt_mul (by omega))
  · exact hexChar_mem (Nat.mod_lt _ (by omega))
  · cases hfalse

/-! ### Claim theorems -/

/-- C1: for every non-empty module set the strategy is Shared exactly when
there is more than one module or some module name contains a dot; otherwise
the strategy is Single and the single-module build returns one descriptor
with no back-reference. -/
theorem strategy_selector_correct (sources : List BuildSource) (hne : sources ≠ []) :
    (use_shared_lib sources = true ↔
      1 < sources.length ∨ ∃ s ∈ sources, '.' ∈ s.module.toList) ∧
    (use_shared_lib sources = false →
      ∀ cfiles eca,
        ((build_single_module sources cfiles eca).getD []).length = 1 ∧
        ∀ e ∈ (build_single_module sources cfiles eca).getD [],
          e.mypyc_shared_target = none) := by
  constructor
  · simp [use_shared_lib, List.any_eq_true]
  · intro _ cfiles eca
    match sources, hne with
    | s :: rest, _ =>
      refine ⟨rfl, ?_⟩
      intro e he
      simp only [build_single_module, Option.getD_some, List.mem_singleton] at he
      subst he
      rfl

/-- C1 witness: a single top-level module gets the Single strategy and one
descriptor. -/
theorem strategy_selector_correct_witness :
    use_shared_lib [⟨"foo", some "foo.py"⟩] = false ∧
    ((build_single_module [⟨"foo", some "foo.py"⟩] ["build/foo.c"] []).getD []).length = 1 :=
  ⟨by decide,
   ((strategy_selector_correct [⟨"foo", some "foo.py"⟩] (by decide)).2 (by decide)
     ["build/foo.c"] []).1⟩

/-- C4: the relative link path from a descriptor to the build root is one
parent-directory step per dot of the dotted descriptor name, the current
directory when there is none; a name of depth 2 such as `a.b.c` gives two
steps and a top-level name gives the current directory. -/
theorem link_path_depth :
    (∀ name : String,
      get_rt_lib_path name =
        if name.toList.count '.' = 0 then "."
        else os_path_join_all (List.replicate (name.toList.count '.') "..")) ∧
    get_rt_lib_path "a.b.c" = "../.." ∧ get_rt_lib_path "foo" = "." := by
  refine ⟨?_, by decide, by decide⟩
  intro name
  simp only [get_rt_lib_path, pySplit_length]
  by_cases h : List.count '.' name.data = 0
  · have hni : ('.' : Char) ∉ name.data := List.count_eq_zero.mp h
    simp [h, hni]
  · have hmem : ('.' : Char) ∈ name.data := List.count_pos_iff.mp (Nat.pos_of_ne_zero h)
    simp [h, hmem]

/-- C7: shim source generation is pure and deterministic: the generated
text depends only on the module names and the platform, not on the output
directory or any other state. -/
theorem shim_generation_deterministic (platform : Platform)
    (full_module_name module_name d1 d2 : String) :
    (generate_c_extension_shim platform full_module_name module_name d1).2 =
    (generate_c_extension_shim platform full_module_name module_name d2).2 := rfl

/-- C10 counterexample: a non-None but empty options list is rebound to a
fresh list by `mypy_options or []`, so the caller's empty list is NOT
mutated, while the separator and the paths still reach `process_options`. -/
theorem mypy_options_empty_unchanged :
    (get_mypy_config_options ["foo.py"] (some [])).caller_after = some [] ∧
    (get_mypy_config_options ["foo.py"] (some [])).used = ["--", "foo.py"] :=
  ⟨rfl, rfl⟩

/-- C10 amended: a non-None, non-empty options list is mutated in place,
the separator and the expanded paths are appended to it, and it therefore
does not remain unchanged; an empty list is replaced by a fresh list and
stays as it was. -/
theorem mypy_options_mutation (paths l : List String) (h : l ≠ []) :
    (get_mypy_config_options paths (some l)).caller_after = some (l ++ ["--"] ++ paths) ∧
    l ++ ["--"] ++ paths ≠ l := by
  constructor
  · simp [get_mypy_config_options, h]
  · intro hc
    have := congrArg List.length hc
    simp [List.length_append] at this

/-- C10 witness: a concrete non-empty option list gains the separator and
the path. -/
theorem mypy_options_mutation_witness :
    (get_mypy_config_options ["foo.py"] (some ["--verbose"])).caller_after =
      some (["--verbose"] ++ ["--"] ++ ["foo.py"]) :=
  (mypy_options_mutation ["foo.py"] ["--verbose"] (by decide)).1

/-- C2: a Shared build over N modules yields N+1 descriptors: the shared
one first and marked, exactly one marked in total, and every other
descriptor a shim whose back-reference is that shared descriptor. -/
theorem shared_build_invariant (platform : Platform) (sources : List BuildSource)
    (lib_name : String) (cfiles : List String) (build_dir : String) (eca : List String)
    (exts : List MypycifyExtension)
    (h : build_using_shared_lib platform sources lib_name cfiles build_dir eca = some exts) :
    exts.length = sources.length + 1 ∧
    (exts.filter (fun e => e.is_mypyc_shared)).length = 1 ∧
    ∀ shared, exts.head? = some shared →
      shared.is_mypyc_shared = true ∧
      ∀ e ∈ exts.tail, e.is_mypyc_shared = false ∧ e.mypyc_shared_target = some shared := by
  simp only [build_using_shared_lib] at h
  split at h
  case isTrue hall =>
    injection h with h
    subst h
    refine ⟨by simp, ?_, ?_⟩
    · rw [List.filter_cons_of_pos (by rfl)]
      have hnil : (sources.map fun source =>
          MypycifyExtension.mk
            (if posixBasename (source.path.getD "") = "__init__.py" then
              source.module ++ ".__init__" else source.module)
            [(generate_c_extension_shim platform source.module
                (String.mk ((pySplit '.' source.module.toList).getLastD [])) build_dir).1]
            [] eca false
            (some (MypycifyExtension.mk ("lib" ++ lib_name) cfiles [include_dir] eca true
              none))).filter (fun e => e.is_mypyc_shared) = [] := by
        rw [List.filter_eq_nil_iff]
        intro e he
        simp only [List.mem_map] at he
        obtain ⟨s, _, rfl⟩ := he
        simp [MypycifyExtension.is_mypyc_shared]
      rw [hnil]
      rfl
    · intro shared hs
      simp only [List.head?_cons, Option.some_inj] at hs
      subst hs
      refine ⟨rfl, ?_⟩
      intro e he
      simp only [List.tail_cons, List.mem_map] at he
      obtain ⟨s, _, rfl⟩ := he
      exact ⟨rfl, rfl⟩
  case isFalse => exact Option.noConfusion h

/-- C2 witness: one module, one shared descriptor plus one shim. -/
theorem shared_build_invariant_witness :
    ((build_using_shared_lib Platform.linux [⟨"foo", some "foo.py"⟩] "mypyc_x" ["f.c"]
        "build" []).getD []).length = [(⟨"foo", some "foo.py"⟩ : BuildSource)].length + 1 :=
  (shared_build_invariant Platform.linux [⟨"foo", some "foo.py"⟩] "mypyc_x" ["f.c"]
    "build" [] _ rfl).1

/-- C5: each shim descriptor is named by the dotted module name, with the
`.__init__` suffix exactly when the source file basename is
`__init__.py`. -/
theorem shim_descriptor_names (platform : Platform) (sources : List BuildSource)
    (lib_name : String) (cfiles : List String) (build_dir : String) (eca : List String)
    (exts : List MypycifyExtension)
    (h : build_using_shared_lib platform sources lib_name cfiles build_dir eca = some exts) :
    exts.tail.map MypycifyExtension.name =
      sources.map (fun s =>
        if posixBasename (s.path.getD "") = "__init__.py" then s.module ++ ".__init__"
        else s.module) := by
  simp only [build_using_shared_lib] at h
  split at h
  case isTrue hall =>
    injection h with h
    subst h
    simp only [List.tail_cons, List.map_map]
    apply List.map_congr_left
    intro s _
    rfl
  case isFalse => exact Option.noConfusion h

/-- C5 witness: a package initializer gets the suffix, a plain module does
not. -/
theorem shim_descriptor_names_witness :
    ((build_using_shared_lib Platform.linux
        [⟨"a.b", some "a/b/__init__.py"⟩, ⟨"a.c", some "a/c.py"⟩] "mypyc_x" [] "build"
        []).getD []).tail.map MypycifyExtension.name = ["a.b.__init__", "a.c"] := by
  have h := shim_descriptor_names Platform.linux
    [⟨"a.b", some "a/b/__init__.py"⟩, ⟨"a.c", some "a/c.py"⟩] "mypyc_x" [] "build" [] _ rfl
  exact h.trans (by decide)

set_option maxRecDepth 100000 in
/-- C3 counterexample: the hash is taken over the module list in the given
order, not sorted, so two lists with equal sorted contents (a permutation)
receive different names. -/
theorem shared_lib_name_not_sorted :
    (["a", "b"] : List String).Perm ["b", "a"] ∧
    shared_lib_name ["a", "b"] ≠ shared_lib_name ["b", "a"] :=
  ⟨by decide, by decide⟩

set_option maxRecDepth 100000 in
/-- C3 amended: the name is a content hash of the comma-joined module list
in the order given: lists with equal comma-joins get equal names, the name
for two modules differs from the name for one of them, and reordering the
list changes the name. -/
theorem shared_lib_name_join_hash :
    (∀ ms1 ms2 : List String, String.intercalate "," ms1 = String.intercalate "," ms2 →
        shared_lib_name ms1 = shared_lib_name ms2) ∧
    shared_lib_name ["pkg.mod1", "pkg.mod2"] ≠ shared_lib_name ["pkg.mod1"] ∧
    shared_lib_name ["a", "b"] ≠ shared_lib_name ["b", "a"] := by
  refine ⟨?_, by decide, by decide⟩
  intro ms1 ms2 h
  unfold shared_lib_name
  rw [h]

/-- C3 witness: equal comma-joins give equal names. -/
theorem shared_lib_name_join_hash_witness :
    shared_lib_name ["x", "y"] = shared_lib_name ["x,y"] :=
  shared_lib_name_join_hash.1 ["x", "y"] ["x,y"] rfl

/-- C9: the shared-library name is always `mypyc_` followed by exactly 20
lowercase hexadecimal characters, and it depends only on the comma-joined
module-name string, so `[\"a,b\"]` and `[\"a\", \"b\"]` get the same
name. -/
theorem shared_lib_name_form :
    (∀ modules : List String, ∃ suffix : List Char,
        shared_lib_name modules = "mypyc_" ++ String.mk suffix ∧
        suffix.length = 20 ∧ ∀ c ∈ suffix, c ∈ hexChars) ∧
    (∀ ms1 ms2 : List String, String.intercalate "," ms1 = String.intercalate "," ms2 →
        shared_lib_name ms1 = shared_lib_name ms2) ∧
    shared_lib_name ["a,b"] = shared_lib_name ["a", "b"] := by
  refine ⟨?_, ?_, ?_⟩
  · intro modules
    refine ⟨(sha1HexdigestChars (strBytes (String.intercalate "," modules))).take 20,
      rfl, ?_, ?_⟩
    · simp [List.length_take, sha1HexdigestChars_length]
    · intro c hc
      exact sha1HexdigestChars_mem _ c (List.take_subset _ _ hc)
  · intro ms1 ms2 h
    unfold shared_lib_name
    rw [h]
  · unfold shared_lib_name
    rfl

/-- C9 witness: two lists with the same comma-join share the name. -/
theorem shared_lib_name_form_witness :
    shared_lib_name ["m1", "m2"] = shared_lib_name ["m1,m2"] :=
  shared_lib_name_form.2.1 ["m1", "m2"] ["m1,m2"] rfl

/-- C6 counterexample: on the empty module set the build does fail and no
descriptors are produced, but the build output directory IS created,
because the directory is made before the configuration is read. -/
theorem empty_build_dir_counterexample :
    (mypycify Platform.linux
        (fun _ => Except.error "Missing target module, package, files, or command.")
        (fun _ => []) [] none [] []).dirs_created = ["build"] ∧
    isError (mypycify Platform.linux
        (fun _ => Except.error "Missing target module, package, files, or command.")
        (fun _ => []) [] none [] []).result = true :=
  ⟨rfl, rfl⟩

/-- C6 amended: on the empty module set the build fails before any
descriptors are produced, but the build output directory `build` is
created, since its creation precedes the configuration step that rejects
the empty set. -/
theorem empty_module_set_fails (platform : Platform)
    (process_options : List String → Except String (List BuildSource × MypyOptions))
    (globFn : String → List String) (mypy_options : Option (List String))
    (cgen_files cflags : List String)
    (hempty : ∀ args sources options,
      process_options args = .ok (sources, options) → sources = []) :
    isError (mypycify platform process_options globFn [] mypy_options cgen_files
        cflags).result = true ∧
    (mypycify platform process_options globFn [] mypy_options cgen_files
        cflags).dirs_created = ["build"] := by
  simp only [mypycify, get_mypy_config]
  cases hpo : process_options
      (get_mypy_config_options ((([] : List String).map globFn).flatten) mypy_options).used with
  | error e => simp [isError]
  | ok p =>
    obtain ⟨s0, o0⟩ := p
    have hs0 : s0 = [] := hempty _ _ _ hpo
    subst hs0
    by_cases h2 : o0.python_version_major = 2
    · simp [h2, fail, isError]
    · by_cases h3 : o0.strict_optional
      · simp [h2, h3, fail, isError, use_shared_lib, build_single_module]
      · simp [h2, h3, fail, isError]

/-- C6 witness: a front end that rejects everything gives the failure
while the directory is still created. -/
theorem empty_module_set_fails_witness :
    isError (mypycify Platform.linux (fun _ => Except.error "no targets") (fun _ => [])
        [] none [] []).result = true :=
  (empty_module_set_fails Platform.linux (fun _ => Except.error "no targets") (fun _ => [])
    none [] [] (fun _ _ _ h => Except.noConfusion h)).1

/-- C8: a configuration selecting Python 2 or disabling strict-optional
checking terminates the build with one of the two fatal messages before
any descriptor is produced. -/
theorem py2_and_nonstrict_rejected (platform : Platform)
    (process_options : List String → Except String (List BuildSource × MypyOptions))
    (globFn : String → List String) (paths : List String)
    (mypy_options : Option (List String)) (cgen_files cflags : List String)
    (sources : List BuildSource) (options : MypyOptions)
    (hpo : process_options
        (get_mypy_config_options ((paths.map globFn).flatten) mypy_options).used =
        .ok (sources, options))
    (hbad : options.python_version_major = 2 ∨ options.strict_optional = false) :
    (mypycify platform process_options globFn paths mypy_options cgen_files
        cflags).result = .error "Python 2 not supported" ∨
    (mypycify platform process_options globFn paths mypy_options cgen_files
        cflags).result = .error "Disabling strict optional checking not supported" := by
  simp only [mypycify, get_mypy_config]
  rw [hpo]
  by_cases h2 : options.python_version_major = 2
  · left
    simp [h2, fail]
  · right
    have h3 : options.strict_optional = false := by
      rcases hbad with hb | hb
      · exact absurd hb h2
      · exact hb
    simp [h2, h3, fail]

/-- C8 witness: a front end reporting Python 2 makes the build fail with
the Python 2 message. -/
theorem py2_and_nonstrict_rejected_witness :
    (mypycify Platform.linux (fun _ => Except.ok ([], ⟨2, 7, true, false, false, true, []⟩))
        (fun _ => []) [] none [] []).result = .error "Python 2 not supported" ∨
    (mypycify Platform.linux (fun _ => Except.ok ([], ⟨2, 7, true, false, false, true, []⟩))
        (fun _ => []) [] none [] []).result =
        .error "Disabling strict optional checking not supported" :=
  py2_and_nonstrict_rejected Platform.linux
    (fun _ => Except.ok ([], ⟨2, 7, true, false, false, true, []⟩)) (fun _ => []) [] none
    [] [] [] ⟨2, 7, true, false, false, true, []⟩ rfl (Or.inl rfl)

end MypycBuild
